import Mathlib

/-!
Verification of the battlesnake game-format library (`main.go`,
package `battlesnakegameformat`).

Shallow embedding conventions:

* Go `int32` fields are modelled as `Int` (no arithmetic in the code can
  overflow them except `int32(len(Body))`, modelled by explicit
  truncation `int32ofNat`); Go strings are Lean `String`s; Go slices are
  Lean `List`s (a `nil` slice and an empty slice are identified — the
  code never distinguishes them).
* A zip archive is modelled as its list of members `(name, content)`;
  the compressed byte representation is abstracted away.  The content of
  a member is modelled at the JSON-document level (a `Json` tree) rather
  than as a byte string: `json.Marshal` becomes a function into `Json`
  and `json.Unmarshal` a function out of it, following the struct tags
  of the source field by field.  Fields tagged `,string`
  (`foodSpawnChance`, `minimumFood`, `damagePerTurn`) marshal to a JSON
  string holding the decimal representation of the number, modelled by
  `intToDec` / `parseIntDec` (the model of `strconv` formatting).
* A Go runtime panic (out-of-range slice index) is modelled as the
  distinguished outcome `TransErr.panic`.  It is NOT an error return in
  Go — the program crashes — but keeping it as a separate constructor
  of the result type lets theorems state exactly where the code panics
  instead of returning an error value.
-/

/-! ## Decimal strings (model of strconv / `,string` JSON encoding) -/

/-- Decimal digit characters of a natural number, most significant first
(`Nat.digits` is little-endian, hence the `reverse`); `0` prints as `"0"`. -/
def natDecChars (n : Nat) : List Char :=
  if n = 0 then ['0'] else ((Nat.digits 10 n).map Nat.digitChar).reverse

/-- Decimal representation of an integer, as written by Go's `strconv`. -/
def intToDec (n : Int) : String :=
  if n < 0 then String.mk ('-' :: natDecChars n.natAbs)
  else String.mk (natDecChars n.toNat)

/-- Value of a decimal digit character, `none` for a non-digit. -/
def decDigit? (c : Char) : Option Nat :=
  if 48 ≤ c.toNat ∧ c.toNat ≤ 57 then some (c.toNat - 48) else none

/-- Element-wise decoding of a list, failing as soon as one element
fails (the specialisation of `mapM` to `Option`, written out so that
proofs can proceed by plain structural induction). -/
def optMapM {α β : Type} (f : α → Option β) : List α → Option (List β)
  | [] => some []
  | x :: xs => do
      let y ← f x
      let ys ← optMapM f xs
      some (y :: ys)

/-- Parse a non-empty list of decimal digit characters (most significant
first) as a natural number. -/
def parseNatDec (cs : List Char) : Option Nat :=
  if cs = [] then none
  else (optMapM decDigit? cs).map fun ds => Nat.ofDigits 10 ds.reverse

/-- Parse a decimal integer with optional leading minus sign
(character-list form). -/
def parseIntDecChars : List Char → Option Int
  | [] => none
  | c :: rest =>
      if c = '-' then (parseNatDec rest).map fun n => -(Int.ofNat n)
      else (parseNatDec (c :: rest)).map fun n => Int.ofNat n

/-- Parse a decimal integer with optional leading minus sign. -/
def parseIntDec (s : String) : Option Int :=
  parseIntDecChars s.data

/-- Two's-complement truncation of a natural number to `int32`,
the model of Go's `int32(n)` conversion. -/
def int32ofNat (n : Nat) : Int :=
  ((n : Int) + 2 ^ 31) % 2 ^ 32 - 2 ^ 31

/-! ## View structs (archival format, as returned by the engine) -/

structure ViewCoord where
  X : Int
  Y : Int
deriving Repr, DecidableEq, Inhabited

structure ViewDeath where
  Cause : String
  Turn : Int
  EliminatedBy : String
deriving Repr, DecidableEq

structure ViewSnake where
  ID : String
  Name : String
  URL : String
  Body : List ViewCoord
  Health : Int
  Color : String
  HeadType : String
  TailType : String
  Latency : String
  Shout : String
  Squad : String
  APIVersion : String
  Author : String
  Death : ViewDeath
deriving Repr, DecidableEq

structure ViewFrame where
  Turn : Int
  Snakes : List ViewSnake
  Food : List ViewCoord
  Hazards : List ViewCoord
deriving Repr, DecidableEq

structure ViewRuleset where
  FoodSpawnChance : Int
  MinimumFood : Int
  Name : String
  Map : String
  MapAuthor : String
  DamagePerTurn : Int
deriving Repr, DecidableEq

structure ViewGameSettings where
  ID : String
  Ruleset : ViewRuleset
  Timeout : Int
  Status : String
  Width : Int
  Height : Int
deriving Repr, DecidableEq

structure ViewGame where
  Game : ViewGameSettings
  Frames : List ViewFrame
  FirstFrame : ViewFrame
  LastTurn : Int
deriving Repr, DecidableEq

/-! ## Move structs (decision-request format, sent to a snake's /move) -/

structure MoveCoord where
  X : Int
  Y : Int
deriving Repr, DecidableEq

structure MoveRoyale where
  ShrinkEveryNTurns : Int
deriving Repr, DecidableEq

structure MoveSquad where
  AllowBodyCollisions : Bool
  SharedElimination : Bool
  SharedHealth : Bool
  SharedLength : Bool
deriving Repr, DecidableEq

structure MoveSettings where
  FoodSpawnChance : Int
  MinimumFood : Int
  HazardDamagePerTurn : Int
  Royale : MoveRoyale
  Squad : MoveSquad
deriving Repr, DecidableEq

structure MoveRuleset where
  Name : String
  Version : String
  Settings : MoveSettings
deriving Repr, DecidableEq

structure MoveGame where
  ID : String
  Ruleset : MoveRuleset
  Timeout : Int
deriving Repr, DecidableEq

structure MoveBattlesnake where
  ID : String
  Name : String
  Health : Int
  Body : List MoveCoord
  Head : MoveCoord
  Length : Int
  Latency : String
  Shout : String
  Squad : String
deriving Repr, DecidableEq

structure MoveBoard where
  Height : Int
  Width : Int
  Food : List MoveCoord
  Snakes : List MoveBattlesnake
  Hazards : List MoveCoord
deriving Repr, DecidableEq

structure MoveGameState where
  Game : MoveGame
  Turn : Int
  Board : MoveBoard
  You : MoveBattlesnake
deriving Repr, DecidableEq

/-! ## Translation-layer outcomes

The Go translation functions return `(*T, error)`.  The spec's
taxonomy distinguishes a RangeError (turn out of range) and a
NotFoundError (snake id absent); both are plain `error` values in the
source, told apart by their message, so they get separate constructors.
`panic` is the model of a Go runtime panic from an out-of-range slice
index: the program crashes, no error value is ever returned. -/

inductive TransErr where
  | rangeError (msg : String)
  | notFoundError (msg : String)
  | panic (msg : String)
deriving Repr, DecidableEq

instance {ε α : Type} [DecidableEq ε] [DecidableEq α] :
    DecidableEq (Except ε α) := fun a b =>
  match a, b with
  | .error e, .error f =>
      if h : e = f then isTrue (by rw [h])
      else isFalse fun hc => h (Except.error.inj hc)
  | .error _, .ok _ => isFalse fun hc => Except.noConfusion hc
  | .ok _, .error _ => isFalse fun hc => Except.noConfusion hc
  | .ok x, .ok y =>
      if h : x = y then isTrue (by rw [h])
      else isFalse fun hc => h (Except.ok.inj hc)

/-- Go slice indexing `xs[i]`: yields the element when `0 ≤ i < len`,
panics ("index out of range") otherwise. -/
def goIndex {α : Type} (xs : List α) (i : Int) : Except TransErr α :=
  if h : 0 ≤ i ∧ i.toNat < xs.length then .ok (xs.get ⟨i.toNat, h.2⟩)
  else .error (.panic "index out of range")

/-- Model of `getFrame` (main.go:280-285):
`if len(game.Frames) < int(turn)+1` return error; else return
`&game.Frames[turn]` — an index expression that panics when `turn`
is negative. -/
def getFrame (game : ViewGame) (turn : Int) : Except TransErr ViewFrame :=
  if (game.Frames.length : Int) < turn + 1 then
    .error (.rangeError ("no frame found for turn " ++ intToDec turn))
  else goIndex game.Frames turn

/-- Model of `convertCoord` (main.go:268-270): the Go struct conversion
`MoveCoord(c)`, carrying both fields across unchanged. -/
def convertCoord (c : ViewCoord) : MoveCoord :=
  { X := c.X, Y := c.Y }

/-- Model of `convertCoords` (main.go:272-278): builds the converted list
by appending one converted element per input element, in order. -/
def convertCoords (coords : List ViewCoord) : List MoveCoord :=
  coords.map convertCoord

/-- The per-snake conversion performed in the body of `ToMove`'s loop
(main.go:216-226 and 228-238 are the same literal): the head is
`convertCoord(frameSnake.Body[0])`, an index expression; `snakeToMove`
routes it through `goIndex`, so an empty body panics. -/
def snakeToMove (s : ViewSnake) : Except TransErr MoveBattlesnake := do
  let head0 ← goIndex s.Body 0
  .ok { ID := s.ID
        Name := s.Name
        Health := s.Health
        Body := convertCoords s.Body
        Head := convertCoord head0
        Length := int32ofNat s.Body.length
        Latency := s.Latency
        Shout := s.Shout
        Squad := s.Squad }

/-- The loop of `ToMove` (main.go:214-239): walks the frame's snakes in
order, converts each one, appends it to the board list, and records the
converted snake as `you` whenever its ID matches (a later match
overwrites an earlier one, as in the source). -/
def toMoveLoop (snakeId : String) :
    List ViewSnake → Option MoveBattlesnake → List MoveBattlesnake →
    Except TransErr (Option MoveBattlesnake × List MoveBattlesnake)
  | [], you, snakes => .ok (you, snakes)
  | fs :: rest, you, snakes => do
      let ms ← snakeToMove fs
      let you2 := if snakeId == fs.ID then some ms else you
      toMoveLoop snakeId rest you2 (snakes ++ [ms])

/-! ## JSON documents and the archive codec

`Encode` (main.go:157-176) marshals the record to JSON and writes it as
the single member `game.json` of a fresh zip archive.  `Decode`
(main.go:179-203) opens the archive, rejects it unless it has exactly
one member, reads that member and unmarshals it.  The archive is
modelled as the list of its members; a member's content is the JSON
document it holds. -/

inductive Json where
  | null
  | bool (b : Bool)
  | num (n : Int)
  | str (s : String)
  | arr (elems : List Json)
  | obj (fields : List (String × Json))

/-- One archive member: (file name, JSON content). -/
abbrev ZipArchive := List (String × Json)

/-- Look up a struct field in a JSON object's member list.  Following
`encoding/json`, a later duplicate key overwrites an earlier one (hence
the `reverse`), and an absent key leaves the field at its zero value. -/
def getField {α : Type} (fs : List (String × Json)) (name : String)
    (zero : α) (dec : Json → Option α) : Option α :=
  match fs.reverse.lookup name with
  | none => some zero
  | some v => dec v

/-- Decode a JSON value into a Go string field (`null` is a no-op,
leaving the zero value, as in `encoding/json`). -/
def decStr : Json → Option String
  | .str s => some s
  | .null => some ""
  | _ => none

/-- Decode a JSON value into a Go integer field. -/
def decInt : Json → Option Int
  | .num n => some n
  | .null => some 0
  | _ => none

/-- Decode a JSON value into a Go integer field tagged `,string`:
the number arrives as a JSON string holding its decimal form. -/
def decIntStr : Json → Option Int
  | .str s => parseIntDec s
  | .null => some 0
  | _ => none

/-- Decode a JSON value into a Go slice field (`null` unmarshals to a
nil slice, identified with the empty list). -/
def decArr {α : Type} (dec : Json → Option α) : Json → Option (List α)
  | .arr xs => optMapM dec xs
  | .null => some []
  | _ => none

def marshalViewCoord (c : ViewCoord) : Json :=
  .obj [("X", .num c.X), ("Y", .num c.Y)]

def unmarshalViewCoord : Json → Option ViewCoord
  | .obj fs => do
      let x ← getField fs "X" 0 decInt
      let y ← getField fs "Y" 0 decInt
      some { X := x, Y := y }
  | .null => some { X := 0, Y := 0 }
  | _ => none

def marshalViewDeath (d : ViewDeath) : Json :=
  .obj [("Cause", .str d.Cause), ("Turn", .num d.Turn),
        ("EliminatedBy", .str d.EliminatedBy)]

def unmarshalViewDeath : Json → Option ViewDeath
  | .obj fs => do
      let cause ← getField fs "Cause" "" decStr
      let turn ← getField fs "Turn" 0 decInt
      let elim ← getField fs "EliminatedBy" "" decStr
      some { Cause := cause, Turn := turn, EliminatedBy := elim }
  | .null => some { Cause := "", Turn := 0, EliminatedBy := "" }
  | _ => none

def marshalViewSnake (s : ViewSnake) : Json :=
  .obj [("ID", .str s.ID), ("Name", .str s.Name), ("URL", .str s.URL),
        ("Body", .arr (s.Body.map marshalViewCoord)),
        ("Health", .num s.Health), ("Color", .str s.Color),
        ("HeadType", .str s.HeadType), ("TailType", .str s.TailType),
        ("Latency", .str s.Latency), ("Shout", .str s.Shout),
        ("Squad", .str s.Squad), ("APIVersion", .str s.APIVersion),
        ("Author", .str s.Author), ("Death", marshalViewDeath s.Death)]

def unmarshalViewSnake : Json → Option ViewSnake
  | .obj fs => do
      let id ← getField fs "ID" "" decStr
      let name ← getField fs "Name" "" decStr
      let url ← getField fs "URL" "" decStr
      let body ← getField fs "Body" [] (decArr unmarshalViewCoord)
      let health ← getField fs "Health" 0 decInt
      let color ← getField fs "Color" "" decStr
      let headType ← getField fs "HeadType" "" decStr
      let tailType ← getField fs "TailType" "" decStr
      let latency ← getField fs "Latency" "" decStr
      let shout ← getField fs "Shout" "" decStr
      let squad ← getField fs "Squad" "" decStr
      let apiVersion ← getField fs "APIVersion" "" decStr
      let author ← getField fs "Author" "" decStr
      let death ← getField fs "Death" { Cause := "", Turn := 0, EliminatedBy := "" }
        unmarshalViewDeath
      some { ID := id, Name := name, URL := url, Body := body,
             Health := health, Color := color, HeadType := headType,
             TailType := tailType, Latency := latency, Shout := shout,
             Squad := squad, APIVersion := apiVersion, Author := author,
             Death := death }
  | _ => none

def marshalViewFrame (f : ViewFrame) : Json :=
  .obj [("Turn", .num f.Turn),
        ("Snakes", .arr (f.Snakes.map marshalViewSnake)),
        ("Food", .arr (f.Food.map marshalViewCoord)),
        ("Hazards", .arr (f.Hazards.map marshalViewCoord))]

def unmarshalViewFrame : Json → Option ViewFrame
  | .obj fs => do
      let turn ← getField fs "Turn" 0 decInt
      let snakes ← getField fs "Snakes" [] (decArr unmarshalViewSnake)
      let food ← getField fs "Food" [] (decArr unmarshalViewCoord)
      let hazards ← getField fs "Hazards" [] (decArr unmarshalViewCoord)
      some { Turn := turn, Snakes := snakes, Food := food, Hazards := hazards }
  | _ => none

/-- Zero value of `ViewFrame`, for an absent `FirstFrame` member. -/
def zeroViewFrame : ViewFrame :=
  { Turn := 0, Snakes := [], Food := [], Hazards := [] }

def marshalViewRuleset (r : ViewRuleset) : Json :=
  .obj [("foodSpawnChance", .str (intToDec r.FoodSpawnChance)),
        ("minimumFood", .str (intToDec r.MinimumFood)),
        ("name", .str r.Name), ("map", .str r.Map),
        ("map_author", .str r.MapAuthor),
        ("damagePerTurn", .str (intToDec r.DamagePerTurn))]

def unmarshalViewRuleset : Json → Option ViewRuleset
  | .obj fs => do
      let fsc ← getField fs "foodSpawnChance" 0 decIntStr
      let minFood ← getField fs "minimumFood" 0 decIntStr
      let name ← getField fs "name" "" decStr
      let map ← getField fs "map" "" decStr
      let mapAuthor ← getField fs "map_author" "" decStr
      let dpt ← getField fs "damagePerTurn" 0 decIntStr
      some { FoodSpawnChance := fsc, MinimumFood := minFood, Name := name,
             Map := map, MapAuthor := mapAuthor, DamagePerTurn := dpt }
  | _ => none

/-- Zero value of `ViewRuleset`. -/
def zeroViewRuleset : ViewRuleset :=
  { FoodSpawnChance := 0, MinimumFood := 0, Name := "", Map := "",
    MapAuthor := "", DamagePerTurn := 0 }

def marshalViewGameSettings (g : ViewGameSettings) : Json :=
  .obj [("ID", .str g.ID), ("Ruleset", marshalViewRuleset g.Ruleset),
        ("SnakeTimeout", .num g.Timeout), ("Status", .str g.Status),
        ("Width", .num g.Width), ("Height", .num g.Height)]

def unmarshalViewGameSettings : Json → Option ViewGameSettings
  | .obj fs => do
      let id ← getField fs "ID" "" decStr
      let ruleset ← getField fs "Ruleset" zeroViewRuleset unmarshalViewRuleset
      let timeout ← getField fs "SnakeTimeout" 0 decInt
      let status ← getField fs "Status" "" decStr
      let width ← getField fs "Width" 0 decInt
      let height ← getField fs "Height" 0 decInt
      some { ID := id, Ruleset := ruleset, Timeout := timeout,
             Status := status, Width := width, Height := height }
  | _ => none

/-- Zero value of `ViewGameSettings`. -/
def zeroViewGameSettings : ViewGameSettings :=
  { ID := "", Ruleset := zeroViewRuleset, Timeout := 0, Status := "",
    Width := 0, Height := 0 }

/-- Model of `json.Marshal` on a `ViewGame` (cannot fail for these
field types, so it is total). -/
def marshalViewGame (g : ViewGame) : Json :=
  .obj [("Game", marshalViewGameSettings g.Game),
        ("Frames", .arr (g.Frames.map marshalViewFrame)),
        ("FirstFrame", marshalViewFrame g.FirstFrame),
        ("LastTurn", .num g.LastTurn)]

/-- Model of `json.Unmarshal` into a `ViewGame`. -/
def unmarshalViewGame : Json → Option ViewGame
  | .obj fs => do
      let settings ← getField fs "Game" zeroViewGameSettings unmarshalViewGameSettings
      let frames ← getField fs "Frames" [] (decArr unmarshalViewFrame)
      let firstFrame ← getField fs "FirstFrame" zeroViewFrame unmarshalViewFrame
      let lastTurn ← getField fs "LastTurn" 0 decInt
      some { Game := settings, Frames := frames, FirstFrame := firstFrame,
             LastTurn := lastTurn }
  | _ => none

/-- Codec failures: every branch of `Encode`/`Decode` returns a wrapped
`fmt.Errorf` value; the spec calls them all FormatError. -/
inductive CodecErr where
  | formatError (msg : String)
deriving Repr, DecidableEq

/-- Model of `Encode` (main.go:157-176): marshal the record, create the
single member `game.json` holding it.  `json.Marshal` cannot fail on a
`ViewGame` and zip writing cannot fail on an in-memory buffer, so the
error branches of the source are unreachable and `Encode` always
returns `.ok`. -/
def Encode (game : ViewGame) : Except CodecErr ZipArchive :=
  .ok [("game.json", marshalViewGame game)]

/-- Model of `Decode` (main.go:179-203): require exactly one member,
read it (by position, not by name), unmarshal its content. -/
def Decode (archive : ZipArchive) : Except CodecErr ViewGame :=
  if archive.length ≠ 1 then
    .error (.formatError ("expected 1 file in zip archive, found " ++
      intToDec archive.length))
  else
    match archive.head? with
    | none => .error (.formatError "expected 1 file in zip archive, found 0")
    | some (_, content) =>
        match unmarshalViewGame content with
        | none => .error (.formatError "error unmarshalling compressed game")
        | some game => .ok game

/-- The payload literal returned by `ToMove` (main.go:243-265),
abstracted over the located frame, the converted snake list and `you`.
`Version` and the royale/squad sub-settings are absent from the Go
composite literal, so they take their zero values (`""`, `0`, `false`),
exactly as in the source. -/
def buildMoveState (game : ViewGame) (turn : Int) (frame : ViewFrame)
    (snakes : List MoveBattlesnake) (you : MoveBattlesnake) : MoveGameState :=
  { Game := { ID := game.Game.ID
              Ruleset := { Name := game.Game.Ruleset.Name
                           Version := ""
                           Settings :=
                             { FoodSpawnChance := game.Game.Ruleset.FoodSpawnChance
                               MinimumFood := game.Game.Ruleset.MinimumFood
                               HazardDamagePerTurn := game.Game.Ruleset.DamagePerTurn
                               Royale := { ShrinkEveryNTurns := 0 }
                               Squad := { AllowBodyCollisions := false
                                          SharedElimination := false
                                          SharedHealth := false
                                          SharedLength := false } } }
              Timeout := game.Game.Timeout }
    Turn := turn
    Board := { Width := game.Game.Width
               Height := game.Game.Height
               Snakes := snakes
               Food := convertCoords frame.Food
               Hazards := convertCoords frame.Hazards }
    You := you }

/-- Model of `(*ViewGame).ToMove` (main.go:207-266). -/
def ViewGame.ToMove (game : ViewGame) (turn : Int) (snakeId : String) :
    Except TransErr MoveGameState := do
  let frame ← getFrame game turn
  let (you?, snakes) ← toMoveLoop snakeId frame.Snakes none []
  match you? with
  | none => .error (.notFoundError ("no snake ID found matching " ++ snakeId))
  | some you => .ok (buildMoveState game turn frame snakes you)

/-- The value `snakeToMove` returns whenever the body is non-empty,
written as a total function (`headI` reads the `Body[0]` of the source;
its default value is never used under that hypothesis). -/
def mkMoveSnake (s : ViewSnake) : MoveBattlesnake :=
  { ID := s.ID
    Name := s.Name
    Health := s.Health
    Body := convertCoords s.Body
    Head := convertCoord s.Body.headI
    Length := int32ofNat s.Body.length
    Latency := s.Latency
    Shout := s.Shout
    Squad := s.Squad }

/-- The `you` selection performed by `ToMove`'s loop: starting from the
accumulator `you`, the last snake whose ID equals `snakeId` wins. -/
def lastMatchAux (snakeId : String) (snakes : List ViewSnake)
    (you : Option MoveBattlesnake) : Option MoveBattlesnake :=
  snakes.foldl
    (fun y s => if snakeId == s.ID then some (mkMoveSnake s) else y) you

/-! ## Concrete sample records (used by witnesses and counterexamples) -/

/-- A snake with a two-segment body, id `"a"`. -/
def sampleSnakeA : ViewSnake :=
  { ID := "a", Name := "alpha", URL := "http://a", Body := [⟨1, 1⟩, ⟨1, 2⟩],
    Health := 98, Color := "#ff0000", HeadType := "default",
    TailType := "default", Latency := "55", Shout := "hi", Squad := "",
    APIVersion := "1", Author := "aa",
    Death := { Cause := "", Turn := 0, EliminatedBy := "" } }

/-- A snake with a one-segment body, id `"b"`. -/
def sampleSnakeB : ViewSnake :=
  { ID := "b", Name := "beta", URL := "", Body := [⟨3, 4⟩],
    Health := 100, Color := "#00ff00", HeadType := "beluga",
    TailType := "curled", Latency := "12", Shout := "", Squad := "s1",
    APIVersion := "1", Author := "bb",
    Death := { Cause := "head-collision", Turn := 7, EliminatedBy := "a" } }

/-- A snake whose body list is empty, id `"e"`. -/
def emptyBodySnake : ViewSnake :=
  { ID := "e", Name := "empty", URL := "", Body := [],
    Health := 50, Color := "", HeadType := "", TailType := "",
    Latency := "", Shout := "", Squad := "", APIVersion := "",
    Author := "", Death := { Cause := "", Turn := 0, EliminatedBy := "" } }

/-- A frame holding `sampleSnakeA` and `sampleSnakeB`, in that order. -/
def sampleFrame : ViewFrame :=
  { Turn := 0, Snakes := [sampleSnakeA, sampleSnakeB],
    Food := [⟨0, 0⟩, ⟨5, 5⟩], Hazards := [⟨10, 10⟩] }

/-- Game settings shared by the sample records. -/
def sampleSettings : ViewGameSettings :=
  { ID := "game-1",
    Ruleset := { FoodSpawnChance := 25, MinimumFood := 1, Name := "standard",
                 Map := "standard", MapAuthor := "battlesnake",
                 DamagePerTurn := 14 },
    Timeout := 500, Status := "complete", Width := 11, Height := 11 }

/-- A record with exactly one frame (`sampleFrame`). -/
def sampleGame : ViewGame :=
  { Game := sampleSettings, Frames := [sampleFrame],
    FirstFrame := sampleFrame, LastTurn := 0 }

/-- A frame holding the empty-bodied snake. -/
def emptyBodyFrame : ViewFrame :=
  { Turn := 0, Snakes := [emptyBodySnake], Food := [], Hazards := [] }

/-- A record whose single frame holds a snake with an empty body. -/
def emptyBodyGame : ViewGame :=
  { Game := sampleSettings, Frames := [emptyBodyFrame],
    FirstFrame := zeroViewFrame, LastTurn := 0 }

/-- The payload `sampleGame.ToMove 0 "a"` evaluates to. -/
def sampleMoveStateA : MoveGameState :=
  buildMoveState sampleGame 0 sampleFrame (sampleFrame.Snakes.map mkMoveSnake)
    (mkMoveSnake sampleSnakeA)

/-- The payload `sampleGame.ToMove 0 "b"` evaluates to. -/
def sampleMoveStateB : MoveGameState :=
  buildMoveState sampleGame 0 sampleFrame (sampleFrame.Snakes.map mkMoveSnake)
    (mkMoveSnake sampleSnakeB)

/-! ## Decimal round trip -/

theorem decDigit?_digitChar {d : Nat} (hd : d < 10) :
    decDigit? (Nat.digitChar d) = some d := by
  interval_cases d <;> decide

theorem digitChar_ne_minus {d : Nat} (hd : d < 10) : Nat.digitChar d ≠ '-' := by
  interval_cases d <;> decide

theorem optMapM_digitChar (ds : List Nat) (h : ∀ d ∈ ds, d < 10) :
    optMapM decDigit? (ds.map Nat.digitChar) = some ds := by
  induction ds with
  | nil => rfl
  | cons d ds ih =>
      have hd : d < 10 := h d (List.mem_cons_self d ds)
      have hds : ∀ x ∈ ds, x < 10 := fun x hx => h x (List.mem_cons_of_mem d hx)
      simp [optMapM, decDigit?_digitChar hd, ih hds]

theorem parseNatDec_natDecChars (n : Nat) :
    parseNatDec (natDecChars n) = some n := by
  by_cases hn : n = 0
  · subst hn; decide
  · have hdig : Nat.digits 10 n ≠ [] := Nat.digits_ne_nil_iff_ne_zero.mpr hn
    have hlt : ∀ d ∈ (Nat.digits 10 n).reverse, d < 10 := by
      intro d hd
      exact Nat.digits_lt_base (by norm_num) (List.mem_reverse.mp hd)
    have hmap : ((Nat.digits 10 n).map Nat.digitChar).reverse
        = ((Nat.digits 10 n).reverse.map Nat.digitChar) := by
      exact (List.map_reverse _ _).symm
    have hne : ((Nat.digits 10 n).map Nat.digitChar).reverse ≠ [] := by
      simp [hdig]
    rw [natDecChars, if_neg hn, parseNatDec, if_neg hne, hmap,
      optMapM_digitChar _ hlt]
    simp [Nat.ofDigits_digits]

theorem natDecChars_ne_nil (n : Nat) : natDecChars n ≠ [] := by
  by_cases hn : n = 0
  · subst hn; decide
  · have hdig : Nat.digits 10 n ≠ [] := Nat.digits_ne_nil_iff_ne_zero.mpr hn
    simp [natDecChars, hn, hdig]

theorem natDecChars_ne_minus (n : Nat) : ∀ c ∈ natDecChars n, c ≠ '-' := by
  intro c hc
  by_cases hn : n = 0
  · subst hn
    simp only [natDecChars, if_true, List.mem_singleton] at hc
    subst hc; decide
  · simp only [natDecChars, if_neg hn, List.mem_reverse, List.mem_map] at hc
    obtain ⟨d, hd, rfl⟩ := hc
    exact digitChar_ne_minus (Nat.digits_lt_base (by norm_num) hd)

theorem parseIntDec_intToDec (n : Int) : parseIntDec (intToDec n) = some n := by
  by_cases hneg : n < 0
  · rw [intToDec, if_pos hneg]
    show parseIntDecChars ('-' :: natDecChars n.natAbs) = some n
    simp only [parseIntDecChars, if_true, parseNatDec_natDecChars,
      Option.map_some', Int.ofNat_eq_coe,
      Int.ofNat_natAbs_of_nonpos (le_of_lt hneg), neg_neg]
  · rw [intToDec, if_neg hneg]
    show parseIntDecChars (natDecChars n.toNat) = some n
    cases h : natDecChars n.toNat with
    | nil => exact absurd h (natDecChars_ne_nil _)
    | cons c cs =>
        have hcne : c ≠ '-' := by
          apply natDecChars_ne_minus n.toNat
          rw [h]; exact List.mem_cons_self c cs
        rw [parseIntDecChars, if_neg hcne, ← h, parseNatDec_natDecChars]
        simp
        omega

/-! ## JSON round trip: unmarshal after marshal recovers the record -/

theorem optMapM_map_round {α β : Type} {f : α → β} {g : β → Option α}
    (h : ∀ x, g (f x) = some x) : ∀ xs : List α, optMapM g (xs.map f) = some xs := by
  intro xs
  induction xs with
  | nil => rfl
  | cons x xs ih => simp [optMapM, h, ih]

theorem unmarshal_marshal_coord (c : ViewCoord) :
    unmarshalViewCoord (marshalViewCoord c) = some c := rfl

theorem unmarshal_marshal_death (d : ViewDeath) :
    unmarshalViewDeath (marshalViewDeath d) = some d := rfl

theorem decArr_round {α : Type} {f : α → Json} {g : Json → Option α}
    (h : ∀ x, g (f x) = some x) (xs : List α) :
    decArr g (.arr (xs.map f)) = some xs := by
  simp [decArr, optMapM_map_round h]

set_option maxHeartbeats 1600000 in
theorem unmarshal_marshal_snake (s : ViewSnake) :
    unmarshalViewSnake (marshalViewSnake s) = some s := by
  simp [unmarshalViewSnake, marshalViewSnake, getField, List.lookup, decStr,
    decInt, decArr_round unmarshal_marshal_coord, unmarshal_marshal_death]

set_option maxHeartbeats 1600000 in
theorem unmarshal_marshal_frame (f : ViewFrame) :
    unmarshalViewFrame (marshalViewFrame f) = some f := by
  simp [unmarshalViewFrame, marshalViewFrame, getField, List.lookup, decInt,
    decArr_round unmarshal_marshal_coord, decArr_round unmarshal_marshal_snake]

set_option maxHeartbeats 1600000 in
theorem unmarshal_marshal_ruleset (r : ViewRuleset) :
    unmarshalViewRuleset (marshalViewRuleset r) = some r := by
  simp [unmarshalViewRuleset, marshalViewRuleset, getField, List.lookup,
    decStr, decIntStr, parseIntDec_intToDec]

set_option maxHeartbeats 1600000 in
theorem unmarshal_marshal_settings (g : ViewGameSettings) :
    unmarshalViewGameSettings (marshalViewGameSettings g) = some g := by
  simp [unmarshalViewGameSettings, marshalViewGameSettings, getField,
    List.lookup, decStr, decInt, unmarshal_marshal_ruleset]

set_option maxHeartbeats 1600000 in
theorem unmarshal_marshal_game (g : ViewGame) :
    unmarshalViewGame (marshalViewGame g) = some g := by
  simp [unmarshalViewGame, marshalViewGame, getField, List.lookup, decInt,
    unmarshal_marshal_settings, decArr_round unmarshal_marshal_frame,
    unmarshal_marshal_frame]

/-! ## Behaviour of the translation loop -/

theorem except_ok_bind {ε α β : Type} (a : α) (f : α → Except ε β) :
    (Except.ok a >>= f) = f a := rfl

theorem except_error_bind {ε α β : Type} (e : ε) (f : α → Except ε β) :
    ((Except.error e : Except ε α) >>= f) = Except.error e := rfl

theorem snakeToMove_ok {s : ViewSnake} (h : s.Body ≠ []) :
    snakeToMove s = .ok (mkMoveSnake s) := by
  cases hb : s.Body with
  | nil => exact absurd hb h
  | cons c rest =>
      simp [snakeToMove, goIndex, mkMoveSnake, hb, List.headI,
        except_ok_bind]

theorem snakeToMove_empty {s : ViewSnake} (h : s.Body = []) :
    snakeToMove s = .error (.panic "index out of range") := by
  simp [snakeToMove, goIndex, h, except_error_bind]

theorem toMoveLoop_ok (snakeId : String) :
    ∀ (snakes : List ViewSnake), (∀ s ∈ snakes, s.Body ≠ []) →
      ∀ you acc, toMoveLoop snakeId snakes you acc =
        .ok (lastMatchAux snakeId snakes you, acc ++ snakes.map mkMoveSnake) := by
  intro snakes
  induction snakes with
  | nil => intro _ you acc; simp [toMoveLoop, lastMatchAux]
  | cons fs rest ih =>
      intro h you acc
      have hfs := h fs (List.mem_cons_self _ _)
      have hrest : ∀ s ∈ rest, s.Body ≠ [] :=
        fun s hs => h s (List.mem_cons_of_mem _ hs)
      simp [toMoveLoop, snakeToMove_ok hfs, lastMatchAux, List.foldl,
        ih hrest, except_ok_bind]

theorem toMoveLoop_ok_bodies (snakeId : String) :
    ∀ (snakes : List ViewSnake) you acc p,
      toMoveLoop snakeId snakes you acc = .ok p →
      ∀ s ∈ snakes, s.Body ≠ [] := by
  intro snakes
  induction snakes with
  | nil => intro you acc p _ s hs; cases hs
  | cons fs rest ih =>
      intro you acc p hp s hs
      by_cases hb : fs.Body = []
      · rw [toMoveLoop, snakeToMove_empty hb] at hp
        simp only [except_error_bind] at hp
        exact Except.noConfusion hp
      · rcases List.mem_cons.mp hs with rfl | hs'
        · exact hb
        · rw [toMoveLoop, snakeToMove_ok hb] at hp
          simp only [except_ok_bind] at hp
          exact ih _ _ _ hp s hs'

theorem toMoveLoop_panic (snakeId : String) :
    ∀ (snakes : List ViewSnake) you acc, (∃ s ∈ snakes, s.Body = []) →
      toMoveLoop snakeId snakes you acc =
        .error (.panic "index out of range") := by
  intro snakes
  induction snakes with
  | nil =>
      rintro you acc ⟨s, hs, _⟩
      cases hs
  | cons fs rest ih =>
      rintro you acc ⟨s, hs, hb⟩
      by_cases hfs : fs.Body = []
      · rw [toMoveLoop, snakeToMove_empty hfs]
        rfl
      · rcases List.mem_cons.mp hs with rfl | hs'
        · exact absurd hb hfs
        · rw [toMoveLoop, snakeToMove_ok hfs]
          simpa using ih _ _ ⟨s, hs', hb⟩

theorem lastMatchAux_of_no_match (snakeId : String) :
    ∀ (snakes : List ViewSnake) you, (∀ s ∈ snakes, s.ID ≠ snakeId) →
      lastMatchAux snakeId snakes you = you := by
  intro snakes
  induction snakes with
  | nil => intro you _; rfl
  | cons fs rest ih =>
      intro you h
      have hfs : snakeId ≠ fs.ID := fun he => h fs (List.mem_cons_self _ _) he.symm
      have hbeq : (snakeId == fs.ID) = false := beq_false_of_ne hfs
      simp only [lastMatchAux, List.foldl, hbeq, Bool.false_eq_true, if_false]
      exact ih you fun s hs => h s (List.mem_cons_of_mem _ hs)

theorem lastMatchAux_some (snakeId : String) :
    ∀ (snakes : List ViewSnake) you y,
      lastMatchAux snakeId snakes you = some y →
      you = some y ∨ ∃ s ∈ snakes, s.ID = snakeId ∧ y = mkMoveSnake s := by
  intro snakes
  induction snakes with
  | nil => intro you y h; exact .inl h
  | cons fs rest ih =>
      intro you y h
      rw [lastMatchAux, List.foldl] at h
      rcases ih _ y h with h' | ⟨s, hs, hid, hy⟩
      · by_cases hm : (snakeId == fs.ID) = true
        · rw [if_pos hm] at h'
          exact .inr ⟨fs, List.mem_cons_self _ _, (beq_iff_eq.mp hm).symm,
            (Option.some_injective _ h').symm⟩
        · rw [if_neg hm] at h'
          exact .inl h'
      · exact .inr ⟨s, List.mem_cons_of_mem _ hs, hid, hy⟩

theorem lastMatchAux_match (snakeId : String) :
    ∀ (snakes : List ViewSnake) you, (∃ s ∈ snakes, s.ID = snakeId) →
      ∃ s ∈ snakes, s.ID = snakeId ∧
        lastMatchAux snakeId snakes you = some (mkMoveSnake s) := by
  intro snakes
  induction snakes with
  | nil =>
      rintro you ⟨s, hs, _⟩
      cases hs
  | cons fs rest ih =>
      rintro you ⟨s, hs, hid⟩
      by_cases hrest : ∃ t ∈ rest, t.ID = snakeId
      · obtain ⟨t, ht, htid, heq⟩ := ih _ hrest
        exact ⟨t, List.mem_cons_of_mem _ ht, htid, heq⟩
      · have hsfs : s = fs := by
          rcases List.mem_cons.mp hs with rfl | hs'
          · rfl
          · exact absurd ⟨s, hs', hid⟩ hrest
        subst hsfs
        have hm : (snakeId == s.ID) = true := beq_iff_eq.mpr hid.symm
        refine ⟨s, List.mem_cons_self _ _, hid, ?_⟩
        rw [lastMatchAux, List.foldl, if_pos hm]
        exact lastMatchAux_of_no_match snakeId rest _
          fun t ht hti => hrest ⟨t, ht, hti⟩

theorem ToMove_ok_eq (game : ViewGame) (turn : Int) (snakeId : String)
    (frame : ViewFrame) (hf : getFrame game turn = .ok frame)
    (hbody : ∀ s ∈ frame.Snakes, s.Body ≠ []) (y : MoveBattlesnake)
    (hy : lastMatchAux snakeId frame.Snakes none = some y) :
    game.ToMove turn snakeId =
      .ok (buildMoveState game turn frame (frame.Snakes.map mkMoveSnake) y) := by
  rw [ViewGame.ToMove, hf]
  simp only [except_ok_bind, toMoveLoop_ok snakeId frame.Snakes hbody none [],
    List.nil_append, hy]

theorem ToMove_notFound (game : ViewGame) (turn : Int) (snakeId : String)
    (frame : ViewFrame) (hf : getFrame game turn = .ok frame)
    (hbody : ∀ s ∈ frame.Snakes, s.Body ≠ [])
    (hnone : lastMatchAux snakeId frame.Snakes none = none) :
    game.ToMove turn snakeId =
      .error (.notFoundError ("no snake ID found matching " ++ snakeId)) := by
  rw [ViewGame.ToMove, hf]
  simp only [except_ok_bind, toMoveLoop_ok snakeId frame.Snakes hbody none [],
    List.nil_append, hnone]

theorem ToMove_ok_inv (game : ViewGame) (turn : Int) (snakeId : String)
    (st : MoveGameState) (hok : game.ToMove turn snakeId = .ok st) :
    ∃ frame y, getFrame game turn = .ok frame ∧
      (∀ s ∈ frame.Snakes, s.Body ≠ []) ∧
      lastMatchAux snakeId frame.Snakes none = some y ∧
      st = buildMoveState game turn frame (frame.Snakes.map mkMoveSnake) y := by
  rw [ViewGame.ToMove] at hok
  cases hgf : getFrame game turn with
  | error e =>
      rw [hgf] at hok
      simp only [except_error_bind] at hok
      exact Except.noConfusion hok
  | ok frame =>
      rw [hgf] at hok
      simp only [except_ok_bind] at hok
      cases hloop : toMoveLoop snakeId frame.Snakes none [] with
      | error e =>
          rw [hloop] at hok
          simp only [except_error_bind] at hok
          exact Except.noConfusion hok
      | ok p =>
          have hbody := toMoveLoop_ok_bodies snakeId frame.Snakes none [] p hloop
          have heq := toMoveLoop_ok snakeId frame.Snakes hbody none []
          rw [heq] at hok
          simp only [except_ok_bind, List.nil_append] at hok
          cases hmy : lastMatchAux snakeId frame.Snakes none with
          | none =>
              rw [hmy] at hok
              exact Except.noConfusion hok
          | some y =>
              rw [hmy] at hok
              refine ⟨frame, y, rfl, hbody, hmy, ?_⟩
              exact (Except.ok.inj hok).symm

theorem pairwise_id_eq {l : List ViewSnake}
    (hp : l.Pairwise (fun a b => a.ID ≠ b.ID)) :
    ∀ a ∈ l, ∀ b ∈ l, a.ID = b.ID → a = b := by
  induction l with
  | nil => intro a ha; cases ha
  | cons x xs ih =>
      intro a ha b hb hab
      rcases List.mem_cons.mp ha with rfl | ha'
      · rcases List.mem_cons.mp hb with rfl | hb'
        · rfl
        · exact absurd hab ((List.pairwise_cons.mp hp).1 b hb')
      · rcases List.mem_cons.mp hb with rfl | hb'
        · exact absurd hab.symm ((List.pairwise_cons.mp hp).1 a ha')
        · exact ih (List.pairwise_cons.mp hp).2 a ha' b hb' hab

/-! ## Claims -/

/-- Claim C1 (corrected).  For a record with `N` frames, `ToMove r t id`
fails with the RangeError "no frame found for turn t" exactly when
`t ≥ N`, and the frame lookup succeeds for `0 ≤ t < N`.  For negative
`t`, however, the bounds check `len(frames) < int(turn)+1` lets the
call through to the slice index `Frames[turn]`, which panics with an
index-out-of-range runtime error — it does not return the RangeError
the claim promises. -/
theorem C1_turn_lookup (game : ViewGame) (turn : Int) (snakeId : String) :
    ((game.Frames.length : Int) ≤ turn →
      game.ToMove turn snakeId =
        .error (.rangeError ("no frame found for turn " ++ intToDec turn))) ∧
    (turn < 0 →
      game.ToMove turn snakeId = .error (.panic "index out of range")) ∧
    (0 ≤ turn → turn < (game.Frames.length : Int) →
      ∃ frame, getFrame game turn = .ok frame) := by
  refine ⟨?_, ?_, ?_⟩
  · intro hge
    have h1 : (game.Frames.length : Int) < turn + 1 := by omega
    rw [ViewGame.ToMove, getFrame, if_pos h1]
    rfl
  · intro hneg
    have h1 : ¬ (game.Frames.length : Int) < turn + 1 := by omega
    have h2 : ¬ (0 ≤ turn ∧ turn.toNat < game.Frames.length) := by omega
    rw [ViewGame.ToMove, getFrame, if_neg h1, goIndex, dif_neg h2]
    rfl
  · intro h0 hlt
    have h1 : ¬ (game.Frames.length : Int) < turn + 1 := by omega
    have h2 : 0 ≤ turn ∧ turn.toNat < game.Frames.length := by omega
    exact ⟨_, by rw [getFrame, if_neg h1, goIndex, dif_pos h2]⟩

/-- Claim C1, counterexample to the claim as stated: on a record with
one frame, `ToMove` at turn `-1` panics with an out-of-range index; it
does not fail with the RangeError the claim requires for negative
turns. -/
theorem C1_counterexample :
    sampleGame.ToMove (-1) "a" = .error (.panic "index out of range") := by
  decide

/-- Claim C1, witness: the amended theorem applied at concrete turns
5 (past the single frame), -2 (negative) and 0 (in range). -/
theorem C1_witness :
    sampleGame.ToMove 5 "a" =
      .error (.rangeError ("no frame found for turn " ++ intToDec 5)) ∧
    sampleGame.ToMove (-2) "a" = .error (.panic "index out of range") ∧
    ∃ frame, getFrame sampleGame 0 = .ok frame :=
  ⟨(C1_turn_lookup sampleGame 5 "a").1 (by decide),
   (C1_turn_lookup sampleGame (-2) "a").2.1 (by decide),
   (C1_turn_lookup sampleGame 0 "a").2.2 (by decide) (by decide)⟩

/-- Claim C2 (corrected).  `ToMove` reads `Body[0]` of every snake in
the located frame unconditionally: if any snake's body list is empty
the call panics with an out-of-range index (the code contains no
ValidationError at all).  When the call succeeds, every body in the
frame was non-empty, and the returned `you` is the conversion of a
matching frame snake whose head is its first converted body
coordinate. -/
theorem C2_empty_body (game : ViewGame) (turn : Int) (snakeId : String)
    (frame : ViewFrame) (hf : getFrame game turn = .ok frame) :
    ((∃ s ∈ frame.Snakes, s.Body = []) →
      game.ToMove turn snakeId = .error (.panic "index out of range")) ∧
    (∀ st, game.ToMove turn snakeId = .ok st →
      (∀ s ∈ frame.Snakes, s.Body ≠ []) ∧
      ∃ s ∈ frame.Snakes, s.ID = snakeId ∧ st.You = mkMoveSnake s ∧
        st.You.Head = convertCoord s.Body.headI) := by
  constructor
  · intro hex
    rw [ViewGame.ToMove, hf]
    simp only [except_ok_bind]
    rw [toMoveLoop_panic snakeId frame.Snakes none [] hex]
    rfl
  · intro st hok
    obtain ⟨frame', y, hf', hbody, hy, hst⟩ := ToMove_ok_inv _ _ _ _ hok
    rw [hf] at hf'
    injection hf' with hfe
    subst hfe
    refine ⟨hbody, ?_⟩
    rcases lastMatchAux_some snakeId frame.Snakes none y hy with
      hcontra | ⟨s, hs, hsid, hys⟩
    · exact Option.noConfusion hcontra
    · subst hst
      subst hys
      exact ⟨s, hs, hsid, rfl, rfl⟩

/-- Claim C2, counterexample to the claim as stated: a frame whose only
snake has an empty body makes `ToMove` panic with an out-of-range
index; no ValidationError "empty snake body" is ever produced. -/
theorem C2_counterexample :
    emptyBodyGame.ToMove 0 "e" = .error (.panic "index out of range") := by
  decide

/-- Claim C2, witness: the amended theorem's panic branch applied to
the concrete empty-body record. -/
theorem C2_witness :
    emptyBodyGame.ToMove 0 "x" = .error (.panic "index out of range") :=
  (C2_empty_body emptyBodyGame 0 "x" emptyBodyFrame (by decide)).1
    ⟨emptyBodySnake, by decide, by decide⟩

/-- Claim C3 (confirmed).  Decoding the archive produced by encoding a
record yields the record back, field for field. -/
theorem C3_roundtrip (g : ViewGame) :
    ∃ archive, Encode g = .ok archive ∧ Decode archive = .ok g := by
  refine ⟨[("game.json", marshalViewGame g)], rfl, ?_⟩
  simp [Decode, unmarshal_marshal_game]

/-- Claim C4 (confirmed).  `Encode` always produces an archive with
exactly one member, named "game.json"; `Decode` rejects any archive
whose member count differs from 1 with a FormatError and returns no
record. -/
theorem C4_single_entry (game : ViewGame) (archive : ZipArchive) :
    (∃ a, Encode game = .ok a ∧ a.length = 1 ∧ ∀ m ∈ a, m.1 = "game.json") ∧
    (archive.length ≠ 1 →
      Decode archive = .error (.formatError
        ("expected 1 file in zip archive, found " ++ intToDec archive.length))) := by
  constructor
  · exact ⟨[("game.json", marshalViewGame game)], rfl, rfl, by simp⟩
  · intro h
    rw [Decode, if_pos h]

/-- Claim C4, witness: `Decode` rejecting a zero-member and a
two-member archive. -/
theorem C4_witness :
    Decode [] = .error (.formatError
      ("expected 1 file in zip archive, found " ++ intToDec 0)) ∧
    Decode [("a", .null), ("b", .null)] = .error (.formatError
      ("expected 1 file in zip archive, found " ++ intToDec 2)) :=
  ⟨(C4_single_entry sampleGame []).2 (by decide),
   (C4_single_entry sampleGame [("a", .null), ("b", .null)]).2 (by decide)⟩

/-- Claim C5 (confirmed).  For a frame satisfying the record invariants
(non-empty bodies, unique snake ids) that contains a snake with identity
`snakeId`, `ToMove` succeeds, the payload's `you` carries that id, and
`you` equals (content-wise) the entry with that id in the board's snake
list. -/
theorem C5_identity_resolution (game : ViewGame) (turn : Int) (snakeId : String)
    (frame : ViewFrame) (hf : getFrame game turn = .ok frame)
    (hbody : ∀ s ∈ frame.Snakes, s.Body ≠ [])
    (huniq : frame.Snakes.Pairwise (fun a b => a.ID ≠ b.ID))
    (hmem : ∃ s ∈ frame.Snakes, s.ID = snakeId) :
    ∃ st, game.ToMove turn snakeId = .ok st ∧ st.You.ID = snakeId ∧
      st.You ∈ st.Board.Snakes ∧
      ∀ m ∈ st.Board.Snakes, m.ID = snakeId → m = st.You := by
  obtain ⟨s, hs, hsid, hlast⟩ := lastMatchAux_match snakeId frame.Snakes none hmem
  refine ⟨buildMoveState game turn frame (frame.Snakes.map mkMoveSnake)
    (mkMoveSnake s),
    ToMove_ok_eq game turn snakeId frame hf hbody _ hlast, hsid, ?_, ?_⟩
  · exact List.mem_map_of_mem mkMoveSnake hs
  · intro m hm hmid
    obtain ⟨t, ht, rfl⟩ := List.mem_map.mp hm
    have htid : t.ID = s.ID := by
      have h1 : t.ID = snakeId := hmid
      rw [h1, hsid]
    have hts : t = s := pairwise_id_eq huniq t ht s hs htid
    rw [hts]
    rfl

/-- Claim C5, witness: looking up snake "b" in the sample frame that
holds snakes "a" and "b". -/
theorem C5_witness :
    ∃ st, sampleGame.ToMove 0 "b" = .ok st ∧ st.You.ID = "b" ∧
      st.You ∈ st.Board.Snakes ∧
      ∀ m ∈ st.Board.Snakes, m.ID = "b" → m = st.You :=
  C5_identity_resolution sampleGame 0 "b" sampleFrame (by decide) (by decide)
    (by decide) ⟨sampleSnakeB, by decide, by decide⟩

/-- Claim C6 (confirmed).  When no snake in the located frame carries
`snakeId` (and the frame satisfies the non-empty-body record
invariant), `ToMove` fails with the NotFoundError and returns no
payload. -/
theorem C6_identity_miss (game : ViewGame) (turn : Int) (snakeId : String)
    (frame : ViewFrame) (hf : getFrame game turn = .ok frame)
    (hbody : ∀ s ∈ frame.Snakes, s.Body ≠ [])
    (hmiss : ∀ s ∈ frame.Snakes, s.ID ≠ snakeId) :
    game.ToMove turn snakeId =
      .error (.notFoundError ("no snake ID found matching " ++ snakeId)) :=
  ToMove_notFound game turn snakeId frame hf hbody
    (lastMatchAux_of_no_match snakeId frame.Snakes none hmiss)

/-- Claim C6, witness: an id matching no snake of the sample frame. -/
theorem C6_witness :
    sampleGame.ToMove 0 "zzz" =
      .error (.notFoundError ("no snake ID found matching " ++ "zzz")) :=
  C6_identity_miss sampleGame 0 "zzz" sampleFrame (by decide) (by decide)
    (by decide)

/-- Claim C7 (confirmed).  Every successful `ToMove` board snake list is
exactly the frame's snake list converted element-wise, in the frame's
order: same length, same ids, no filtering and no reordering. -/
theorem C7_board_order (game : ViewGame) (turn : Int) (snakeId : String)
    (st : MoveGameState) (hok : game.ToMove turn snakeId = .ok st) :
    ∃ frame, getFrame game turn = .ok frame ∧
      st.Board.Snakes = frame.Snakes.map mkMoveSnake ∧
      st.Board.Snakes.map MoveBattlesnake.ID = frame.Snakes.map ViewSnake.ID := by
  obtain ⟨frame, y, hf, hbody, hy, hst⟩ := ToMove_ok_inv _ _ _ _ hok
  subst hst
  refine ⟨frame, hf, rfl, ?_⟩
  show List.map MoveBattlesnake.ID (frame.Snakes.map mkMoveSnake) =
    frame.Snakes.map ViewSnake.ID
  rw [List.map_map]
  rfl

/-- Claim C7, witness: the two-snake sample frame, queried for "a". -/
theorem C7_witness :
    ∃ frame, getFrame sampleGame 0 = .ok frame ∧
      sampleMoveStateA.Board.Snakes = frame.Snakes.map mkMoveSnake ∧
      sampleMoveStateA.Board.Snakes.map MoveBattlesnake.ID =
        frame.Snakes.map ViewSnake.ID :=
  C7_board_order sampleGame 0 "a" sampleMoveStateA (by decide)

/-- Claim C8 (confirmed).  Coordinate conversion is total and pure:
both fields are carried through unchanged, and converting a list maps
each element in place (same length, no drops, no reordering). -/
theorem C8_coordinate_fidelity (c : ViewCoord) (cs : List ViewCoord) :
    (convertCoord c).X = c.X ∧ (convertCoord c).Y = c.Y ∧
    convertCoords cs = cs.map convertCoord ∧
    (convertCoords cs).length = cs.length :=
  ⟨rfl, rfl, rfl, by simp [convertCoords]⟩

/-- Claim C9 (confirmed).  Every successful `ToMove` payload's
game-level fields come from the record's settings — id, ruleset name,
timeout, food-spawn chance, minimum food, hazard damage — and the
royale/squad sub-settings are the Go zero values. -/
theorem C9_game_fields (game : ViewGame) (turn : Int) (snakeId : String)
    (st : MoveGameState) (hok : game.ToMove turn snakeId = .ok st) :
    st.Game.ID = game.Game.ID ∧
    st.Game.Ruleset.Name = game.Game.Ruleset.Name ∧
    st.Game.Timeout = game.Game.Timeout ∧
    st.Game.Ruleset.Settings.FoodSpawnChance = game.Game.Ruleset.FoodSpawnChance ∧
    st.Game.Ruleset.Settings.MinimumFood = game.Game.Ruleset.MinimumFood ∧
    st.Game.Ruleset.Settings.HazardDamagePerTurn = game.Game.Ruleset.DamagePerTurn ∧
    st.Game.Ruleset.Settings.Royale = { ShrinkEveryNTurns := 0 } ∧
    st.Game.Ruleset.Settings.Squad =
      { AllowBodyCollisions := false, SharedElimination := false,
        SharedHealth := false, SharedLength := false } := by
  obtain ⟨frame, y, hf, hbody, hy, hst⟩ := ToMove_ok_inv _ _ _ _ hok
  subst hst
  exact ⟨rfl, rfl, rfl, rfl, rfl, rfl, rfl, rfl⟩

/-- Claim C9, witness: game-level fields of the payload for snake "b"
of the sample record. -/
theorem C9_witness :
    sampleMoveStateB.Game.ID = sampleGame.Game.ID ∧
    sampleMoveStateB.Game.Ruleset.Name = sampleGame.Game.Ruleset.Name ∧
    sampleMoveStateB.Game.Timeout = sampleGame.Game.Timeout ∧
    sampleMoveStateB.Game.Ruleset.Settings.FoodSpawnChance =
      sampleGame.Game.Ruleset.FoodSpawnChance ∧
    sampleMoveStateB.Game.Ruleset.Settings.MinimumFood =
      sampleGame.Game.Ruleset.MinimumFood ∧
    sampleMoveStateB.Game.Ruleset.Settings.HazardDamagePerTurn =
      sampleGame.Game.Ruleset.DamagePerTurn ∧
    sampleMoveStateB.Game.Ruleset.Settings.Royale = { ShrinkEveryNTurns := 0 } ∧
    sampleMoveStateB.Game.Ruleset.Settings.Squad =
      { AllowBodyCollisions := false, SharedElimination := false,
        SharedHealth := false, SharedLength := false } :=
  C9_game_fields sampleGame 0 "b" sampleMoveStateB (by decide)

/-- Claim C10 (confirmed).  `Decode` never inspects the single member's
name: any one-member archive whose content unmarshals into a record
decodes successfully, whatever the member is called. -/
theorem C10_member_name (name : String) (content : Json) (g : ViewGame)
    (h : unmarshalViewGame content = some g) :
    Decode [(name, content)] = .ok g := by
  simp [Decode, h]

/-- Claim C10, witness: decoding succeeds with the member renamed to
"replay.bin". -/
theorem C10_witness :
    Decode [("replay.bin", marshalViewGame sampleGame)] = .ok sampleGame :=
  C10_member_name "replay.bin" (marshalViewGame sampleGame) sampleGame
    (unmarshal_marshal_game sampleGame)
